import Mathlib

/-
  Verification of the go-learnings repository specification.

  Shallow embedding of the Go demonstration programs:
  - pure Go functions become Lean functions (Go int is modelled as Int,
    Go float64 values appearing in the division demo as rationals);
  - general recursion is embedded with an explicit fuel parameter, so that
    termination of the Go function is the statement that some fuel suffices;
  - console output is modelled as a list of lines; a line holding a runtime
    measurement (elapsed time, memory statistics) is kept structured as a
    label together with the measured number;
  - defer semantics are modelled by a statement list executed against an
    explicit stack of deferred lines (LIFO);
  - closures with captured mutable state are modelled by explicit state
    passing: the captured variable is the threaded state;
  - goroutine spawn sites are modelled statically as records listing, per
    site, how many tasks are spawned and which synchronization discipline
    the enclosing example uses.
-/

/-! ## functions/go_functions.go : helper functions -/

/-- Embedding of divide from functions/go_functions.go: on b == 0 it
returns 0 together with the error string, otherwise the quotient together
with nil (none). Go float64 values are modelled as rationals; the guard is
the same equality test against zero that the Go code performs. -/
def divide (a b : ℚ) : ℚ × Option String :=
  if b = 0 then (0, some "division by zero") else (a / b, none)

/-- Embedding of getMinMax from functions/go_functions.go:
if a < b it returns (a, b), otherwise (b, a). -/
def getMinMax (a b : Int) : Int × Int :=
  if a < b then (a, b) else (b, a)

/-- Embedding of the variadic sum from functions/go_functions.go:
total starts at 0 and the loop adds every element left to right. -/
def sum (numbers : List Int) : Int :=
  numbers.foldl (fun total num => total + num) 0

/-- Embedding of the recursive sumArray from functions/go_functions.go:
0 on the empty slice, otherwise head plus sumArray of the tail. -/
def sumArray : List Int → Int
  | [] => 0
  | n :: rest => n + sumArray rest

/-! ## Claim C2 : divide error behaviour -/

/-- Claim C2: divide(a, b) returns a non-nil error exactly when b = 0, and
then the result value is 0; when b is nonzero it returns the quotient a/b
together with a nil error. -/
theorem divide_error_iff_zero :
    ∀ a b : ℚ,
      ((divide a b).2 ≠ none ↔ b = 0) ∧
      (b = 0 → (divide a b).1 = 0) ∧
      (b ≠ 0 → (divide a b).1 = a / b ∧ (divide a b).2 = none) := by
  intro a b
  by_cases hb : b = 0
  · subst hb
    refine ⟨⟨fun _ => rfl, fun _ => ?_⟩, fun _ => ?_, fun h => absurd rfl h⟩
    · simp [divide]
    · simp [divide]
  · refine ⟨⟨fun h => ?_, fun h => absurd h hb⟩, fun h => absurd h hb, fun _ => ?_⟩
    · simp [divide, hb] at h
    · simp [divide, hb]

/-- Claim C2 witness: evaluated at the concrete calls of the demo,
divide 10 0 errors with result 0, and divide 10 2 returns 5 without error. -/
theorem divide_error_iff_zero_witness :
    (divide 10 0).1 = 0 ∧ (divide 10 0).2 ≠ none ∧
    (divide 10 2).1 = 5 ∧ (divide 10 2).2 = none := by
  refine ⟨(divide_error_iff_zero 10 0).2.1 rfl,
          ((divide_error_iff_zero 10 0).1).mpr rfl, ?_, ?_⟩
  · have h := ((divide_error_iff_zero 10 2).2.2 (by norm_num)).1
    rw [h]; norm_num
  · exact ((divide_error_iff_zero 10 2).2.2 (by norm_num)).2

/-! ## Claim C8 : getMinMax -/

/-- Claim C8: getMinMax a b returns the pair (min a b, max a b); the first
component is at most the second, and the two components are exactly a and b
in some order. -/
theorem getMinMax_spec :
    ∀ a b : Int,
      (getMinMax a b).1 = min a b ∧
      (getMinMax a b).2 = max a b ∧
      (getMinMax a b).1 ≤ (getMinMax a b).2 ∧
      ((getMinMax a b).1 = a ∧ (getMinMax a b).2 = b ∨
       (getMinMax a b).1 = b ∧ (getMinMax a b).2 = a) := by
  intro a b
  by_cases h : a < b
  · simp only [getMinMax, if_pos h]
    exact ⟨by omega, by omega, le_of_lt h, Or.inl ⟨by simp, by simp⟩⟩
  · simp only [getMinMax, if_neg h]
    exact ⟨by omega, by omega, by omega, Or.inr ⟨by simp, by simp⟩⟩

/-! ## Claim C9 : sum and sumArray agree -/

/-- Helper: the left fold computing the variadic sum, started from any
accumulator, returns the accumulator plus the recursive sumArray. -/
theorem sum_foldl_eq (xs : List Int) :
    ∀ acc : Int, xs.foldl (fun total num => total + num) acc = acc + sumArray xs := by
  induction xs with
  | nil => intro acc; simp [sumArray]
  | cons x xs ih =>
      intro acc
      simp only [List.foldl_cons, sumArray, ih (acc + x)]
      ring

/-- Claim C9: the iterative variadic sum and the recursive sumArray compute
the same function on every slice of ints. -/
theorem sum_eq_sumArray : ∀ xs : List Int, sum xs = sumArray xs := by
  intro xs
  simpa [sum] using sum_foldl_eq xs 0

/-! ## Claim C6 : termination of the recursive helpers

General recursion is embedded with an explicit fuel parameter: the
function returns none when the fuel runs out before reaching a base case.
Termination of the Go function on an input is the statement that some
finite fuel yields a result there. -/

/-- Embedding of factorial from functions/go_functions.go with fuel:
returns 1 when n <= 1, otherwise n * factorial (n-1). -/
def factorialFuel : Nat → Int → Option Int
  | 0, _ => none
  | fuel + 1, n =>
      if n ≤ 1 then some 1
      else (factorialFuel fuel (n - 1)).map (fun r => n * r)

/-- Embedding of fibonacci from functions/go_functions.go with fuel:
returns n when n <= 1, otherwise fibonacci (n-1) + fibonacci (n-2). -/
def fibonacciFuel : Nat → Int → Option Int
  | 0, _ => none
  | fuel + 1, n =>
      if n ≤ 1 then some n
      else
        match fibonacciFuel fuel (n - 1), fibonacciFuel fuel (n - 2) with
        | some r1, some r2 => some (r1 + r2)
        | _, _ => none

/-- Embedding of sumArray from functions/go_functions.go with fuel:
returns 0 on the empty slice, otherwise head plus the recursive call on
the tail. -/
def sumArrayFuel : Nat → List Int → Option Int
  | 0, _ => none
  | fuel + 1, numbers =>
      match numbers with
      | [] => some 0
      | n :: rest => (sumArrayFuel fuel rest).map (fun r => n + r)

/-- Helper: fuel bound for factorial; any fuel exceeding n succeeds. -/
theorem factorialFuel_total (k : Nat) :
    ∀ n : Int, n ≤ k → ∃ r, factorialFuel (k + 1) n = some r := by
  induction k with
  | zero =>
      intro n hn
      exact ⟨1, by simp [factorialFuel, if_pos (by omega : n ≤ 1)]⟩
  | succ k ih =>
      intro n hn
      by_cases h1 : n ≤ 1
      · exact ⟨1, by simp [factorialFuel, if_pos h1]⟩
      · obtain ⟨r, hr⟩ := ih (n - 1) (by push_cast at hn ⊢; omega)
        refine ⟨n * r, ?_⟩
        simp only [factorialFuel] at hr ⊢
        rw [if_neg h1, hr]
        rfl

/-- Helper: one-step unfolding of fibonacciFuel at positive fuel. -/
theorem fibonacciFuel_succ (fuel : Nat) (n : Int) :
    fibonacciFuel (fuel + 1) n =
      if n ≤ 1 then some n
      else
        match fibonacciFuel fuel (n - 1), fibonacciFuel fuel (n - 2) with
        | some r1, some r2 => some (r1 + r2)
        | _, _ => none := rfl

/-- Helper: fuel bound for fibonacci; any fuel exceeding n succeeds. -/
theorem fibonacciFuel_total (k : Nat) :
    ∀ n : Int, n ≤ k → ∃ r, fibonacciFuel (k + 1) n = some r := by
  induction k with
  | zero =>
      intro n hn
      exact ⟨n, by rw [fibonacciFuel_succ, if_pos (by omega : n ≤ 1)]⟩
  | succ k ih =>
      intro n hn
      by_cases h1 : n ≤ 1
      · exact ⟨n, by rw [fibonacciFuel_succ, if_pos h1]⟩
      · obtain ⟨r1, hr1⟩ := ih (n - 1) (by push_cast at hn ⊢; omega)
        obtain ⟨r2, hr2⟩ := ih (n - 2) (by push_cast at hn ⊢; omega)
        refine ⟨r1 + r2, ?_⟩
        rw [fibonacciFuel_succ, if_neg h1, hr1, hr2]

/-- Helper: one-step unfolding of sumArrayFuel at positive fuel. -/
theorem sumArrayFuel_succ (fuel : Nat) (xs : List Int) :
    sumArrayFuel (fuel + 1) xs =
      match xs with
      | [] => some 0
      | n :: rest => (sumArrayFuel fuel rest).map (fun r => n + r) := rfl

/-- Helper: fuel one past the slice length makes sumArrayFuel succeed. -/
theorem sumArrayFuel_total :
    ∀ xs : List Int, ∃ r, sumArrayFuel (xs.length + 1) xs = some r := by
  intro xs
  induction xs with
  | nil => exact ⟨0, rfl⟩
  | cons n rest ih =>
      obtain ⟨r, hr⟩ := ih
      refine ⟨n + r, ?_⟩
      show (sumArrayFuel (rest.length + 1) rest).map (fun r => n + r) = some (n + r)
      rw [hr]
      rfl

/-- Claim C6: the recursive helpers terminate on every input: for every
integer n some finite fuel lets factorialFuel and fibonacciFuel reach their
n <= 1 base case and return a result, and for every finite slice some
finite fuel lets sumArrayFuel reach the empty-slice base case. -/
theorem recursive_helpers_terminate :
    (∀ n : Int, ∃ fuel r, factorialFuel fuel n = some r) ∧
    (∀ n : Int, ∃ fuel r, fibonacciFuel fuel n = some r) ∧
    (∀ xs : List Int, ∃ fuel r, sumArrayFuel fuel xs = some r) := by
  refine ⟨fun n => ?_, fun n => ?_, fun xs => ?_⟩
  · obtain ⟨r, hr⟩ := factorialFuel_total n.toNat n (Int.self_le_toNat n)
    exact ⟨n.toNat + 1, r, hr⟩
  · obtain ⟨r, hr⟩ := fibonacciFuel_total n.toNat n (Int.self_le_toNat n)
    exact ⟨n.toNat + 1, r, hr⟩
  · obtain ⟨r, hr⟩ := sumArrayFuel_total xs
    exact ⟨xs.length + 1, r, hr⟩

/-! ## Claim C4 : makeCounter closures

makeCounter from functions/go_functions.go initializes count := 0 and
returns a closure doing count++; return count. The closure is embedded as
explicit state passing: the captured count variable is the threaded state,
so every call reads the state left by the previous call (sharing, not
copying), and each makeCounter call starts a fresh state. -/

/-- Initial value of the captured count variable of makeCounter. -/
def makeCounterInit : Int := 0

/-- One call of the closure returned by makeCounter: count++ then return
count. Result is (new state of count, returned value). -/
def counterCall (count : Int) : Int × Int :=
  (count + 1, count + 1)

/-- State of the captured count variable after n calls of one counter. -/
def counterState : Nat → Int
  | 0 => makeCounterInit
  | n + 1 => (counterCall (counterState n)).1

/-- Value returned by call number n + 1 of one counter (calls numbered
from 1, so this is the value the n+1-st invocation returns). -/
def counterReturn (n : Nat) : Int :=
  (counterCall (counterState n)).2

/-- Helper: after n calls the captured count variable holds n. -/
theorem counterState_eq (n : Nat) : counterState n = n := by
  induction n with
  | zero => rfl
  | succ n ih => simp [counterState, counterCall, ih]

/-- Claim C4: the closure returned by makeCounter shares its captured
count across calls: the n-th invocation returns n (stated for every k as
invocation k + 1 returning k + 1); and a fresh makeCounter starts its own
state at makeCounterInit, so its first call returns 1 no matter how often
any other counter was invoked. -/
theorem makeCounter_shared_state :
    (∀ k : Nat, counterReturn k = (k : Int) + 1) ∧
    (counterCall makeCounterInit).2 = 1 := by
  constructor
  · intro k
    simp [counterReturn, counterCall, counterState_eq]
  · rfl

/-! ## Claim C3 : defer runs last-registered-first-executed

The bodies of deferStatements, deferExample and deferWithParameters from
functions/go_functions.go are embedded as statement lists. Execution keeps
an explicit stack of deferred lines: print emits a line now, deferPrint
pushes a line on the defer stack, callOut inlines the lines of a finished
nested call, and when the function returns the defer stack is emitted,
which is reverse registration order because the stack grew by pushing. -/

/-- One body statement: an immediate print, a deferred print, or the
output of a nested function call that runs to completion in place. -/
inductive Stmt where
  | print (line : String)
  | deferPrint (line : String)
  | callOut (lines : List String)
deriving DecidableEq

/-- Execute a statement list given the stack of already deferred lines;
the stack is emitted once the body is exhausted. -/
def runStmts : List Stmt → List String → List String
  | [], defers => defers
  | Stmt.print s :: rest, defers => s :: runStmts rest defers
  | Stmt.deferPrint s :: rest, defers => runStmts rest (s :: defers)
  | Stmt.callOut ls :: rest, defers => ls ++ runStmts rest defers

/-- Run a function body with an empty defer stack. -/
def run (body : List Stmt) : List String :=
  runStmts body []

/-- Body of deferExample: print start, defer end, print middle. -/
def deferExampleBody : List Stmt :=
  [Stmt.print "   Defer example start",
   Stmt.deferPrint "   Defer example end",
   Stmt.print "   Defer example middle"]

/-- Body of deferWithParameters: x := 10 is captured by the deferred
Printf at defer time, then x = 20 is printed immediately. -/
def deferWithParametersBody : List Stmt :=
  [Stmt.deferPrint "   Deferred value: 10",
   Stmt.print "   Current value: 20"]

/-- Body of deferStatements: header, Start, three deferred prints
registered in order 1, 2, 3, End, then the two nested calls. -/
def deferStatementsBody : List Stmt :=
  [Stmt.print "\n9. DEFER STATEMENTS:",
   Stmt.print "   Start",
   Stmt.deferPrint "   Deferred 1",
   Stmt.deferPrint "   Deferred 2",
   Stmt.deferPrint "   Deferred 3",
   Stmt.print "   End",
   Stmt.callOut (run deferExampleBody),
   Stmt.callOut (run deferWithParametersBody)]

/-- Helper: running only deferred prints emits them in reverse order on
top of the existing stack. -/
theorem runStmts_defers (ds : List String) :
    ∀ defers : List String,
      runStmts (ds.map Stmt.deferPrint) defers = ds.reverse ++ defers := by
  induction ds with
  | nil => intro defers; simp [runStmts]
  | cons d ds ih =>
      intro defers
      simp [runStmts, ih (d :: defers)]

/-- Helper: immediate prints at the front of a body are emitted first,
unchanged, before whatever the rest of the body produces. -/
theorem runStmts_prints (ps : List String) (rest : List Stmt) :
    ∀ defers : List String,
      runStmts (ps.map Stmt.print ++ rest) defers = ps ++ runStmts rest defers := by
  induction ps with
  | nil => intro defers; simp
  | cons p ps ih =>
      intro defers
      simp [runStmts, ih defers]

/-- Claim C3: deferred calls run last-registered-first-executed. A body of
prints followed by defers emits the prints in order and then the deferred
lines in reverse registration order; concretely the output of
deferStatements contains Start, End, Deferred 3, Deferred 2, Deferred 1 in
exactly that relative order (the deferred lines run after the whole body,
including the two nested calls). -/
theorem deferStatements_lifo :
    (∀ ps ds : List String,
        run (ps.map Stmt.print ++ ds.map Stmt.deferPrint) = ps ++ ds.reverse) ∧
    ["   Start", "   End",
     "   Deferred 3", "   Deferred 2", "   Deferred 1"].Sublist
      (run deferStatementsBody) ∧
    run deferStatementsBody =
      ["\n9. DEFER STATEMENTS:", "   Start", "   End",
       "   Defer example start", "   Defer example middle", "   Defer example end",
       "   Current value: 20", "   Deferred value: 10",
       "   Deferred 3", "   Deferred 2", "   Deferred 1"] := by
  refine ⟨fun ps ds => ?_, ?_, ?_⟩
  · rw [run, runStmts_prints, runStmts_defers]
    simp
  · decide
  · decide

/-! ## Claim C7 : zero values

zeroValues from primitives/go_primitives.go declares variables without
initializers. The embedding of an initializer-free declaration var x T is
the zero value of T; zeroValuesEnv is the environment the function builds,
one entry per declaration in source order. -/

/-- The primitive Go types demonstrated by zeroValues. -/
inductive GoTy where
  | bool
  | int
  | float64
  | string
  | complex128
deriving DecidableEq

/-- Values of those types; float64 and the complex components are modelled
as rationals. -/
inductive GoVal where
  | vBool (b : Bool)
  | vInt (i : Int)
  | vFloat (q : ℚ)
  | vString (s : String)
  | vComplex (re im : ℚ)
deriving DecidableEq

/-- Zero value of a type: the value an initializer-free var declaration
yields. -/
def zeroValue : GoTy → GoVal
  | GoTy.bool => GoVal.vBool false
  | GoTy.int => GoVal.vInt 0
  | GoTy.float64 => GoVal.vFloat 0
  | GoTy.string => GoVal.vString ""
  | GoTy.complex128 => GoVal.vComplex 0 0

/-- The declarations of zeroValues from primitives/go_primitives.go in
source order: var b bool; var i int; var f float64; var s string;
var c complex128; then var counter int; var name string; var isReady bool. -/
def zeroValuesDecls : List (String × GoTy) :=
  [("b", GoTy.bool), ("i", GoTy.int), ("f", GoTy.float64),
   ("s", GoTy.string), ("c", GoTy.complex128),
   ("counter", GoTy.int), ("name", GoTy.string), ("isReady", GoTy.bool)]

/-- The environment zeroValues builds: each declared variable bound to the
zero value of its type. -/
def zeroValuesEnv : List (String × GoVal) :=
  zeroValuesDecls.map (fun d => (d.1, zeroValue d.2))

/-- Claim C7: declaring a variable without an initializer yields the zero
value of its type: false for bool, 0 for int, 0.0 for float64, the empty
string for string; and every variable zeroValues declares and prints holds
exactly that zero value. -/
theorem zeroValues_spec :
    zeroValue GoTy.bool = GoVal.vBool false ∧
    zeroValue GoTy.int = GoVal.vInt 0 ∧
    zeroValue GoTy.float64 = GoVal.vFloat 0 ∧
    zeroValue GoTy.string = GoVal.vString "" ∧
    zeroValuesEnv =
      [("b", GoVal.vBool false), ("i", GoVal.vInt 0), ("f", GoVal.vFloat 0),
       ("s", GoVal.vString ""), ("c", GoVal.vComplex 0 0),
       ("counter", GoVal.vInt 0), ("name", GoVal.vString ""),
       ("isReady", GoVal.vBool false)] :=
  ⟨rfl, rfl, rfl, rfl, rfl⟩

/-! ## Claim C1 : output determinism across runs

performanceImplications (escape-analysis file, unnamed/part_001) and
performanceComparison (stack-vs-heap file, unnamed/part_002) print the
elapsed times of two timing loops and the heap size and GC count read from
runtime.ReadMemStats. A printed line is kept structured: fixed text, or a
label together with the measured number, so the output is a function of
what the run measured. -/

/-- One printed line: fixed text, or a label with a measured value. -/
inductive OutLine where
  | text (s : String)
  | stat (label : String) (value : Nat)
deriving DecidableEq

/-- Output of performanceImplications as a function of the measured stack
loop time, heap loop time, heap bytes and GC count of the run (times in
nanoseconds, a Duration count; HeapAlloc is divided by 1024 as in source). -/
def performanceImplicationsOutput (stackTime heapTime heapAlloc numGC : Nat) :
    List OutLine :=
  [OutLine.text "\n10. PERFORMANCE IMPLICATIONS:",
   OutLine.stat "   Stack allocation: " stackTime,
   OutLine.stat "   Heap allocation: " heapTime,
   OutLine.stat "   Heap size KB: " (heapAlloc / 1024),
   OutLine.stat "   GC cycles: " numGC]

/-- Output of performanceComparison as a function of the same kind of
measurements of its run. -/
def performanceComparisonOutput (stackTime heapTime heapAlloc numGC : Nat) :
    List OutLine :=
  [OutLine.text "\n7. PERFORMANCE COMPARISON:",
   OutLine.stat "   Stack allocation time: " stackTime,
   OutLine.stat "   Heap allocation time: " heapTime,
   OutLine.stat "   Heap size KB: " (heapAlloc / 1024),
   OutLine.stat "   GC cycles: " numGC]

/-- Claim C1 counterexample: the output is not independent of timing. Two
runs of the same file whose first timing loop measures 1 versus 2
nanoseconds print different lines, in both files that measure time. -/
theorem performance_output_depends_on_timing :
    performanceImplicationsOutput 1 1 0 0 ≠ performanceImplicationsOutput 2 1 0 0 ∧
    performanceComparisonOutput 1 1 0 0 ≠ performanceComparisonOutput 2 1 0 0 := by
  decide

/-- Claim C1 amended: each run's output is a deterministic function of the
measurements the run observes, with a fixed five-line shape and fixed
header; but runs observing different measurements print different lines,
so output is not independent of timing or runtime state. -/
theorem performance_output_determined_by_measurements :
    (∀ s h a g, (performanceImplicationsOutput s h a g).length = 5 ∧
        (performanceImplicationsOutput s h a g).head? =
          some (OutLine.text "\n10. PERFORMANCE IMPLICATIONS:")) ∧
    (∀ s t h a g, s ≠ t →
        performanceImplicationsOutput s h a g ≠ performanceImplicationsOutput t h a g) ∧
    (∀ s t h a g, s ≠ t →
        performanceComparisonOutput s h a g ≠ performanceComparisonOutput t h a g) := by
  refine ⟨fun s h a g => ⟨rfl, rfl⟩, fun s t h a g hst heq => ?_, fun s t h a g hst heq => ?_⟩
  · simp [performanceImplicationsOutput] at heq
    exact hst heq
  · simp [performanceComparisonOutput] at heq
    exact hst heq

/-- Claim C1 amended witness: at concrete measurements, the shape facts
hold and measurements 3 and 4 give different outputs. -/
theorem performance_output_determined_by_measurements_witness :
    (performanceImplicationsOutput 3 0 0 0).length = 5 ∧
    performanceImplicationsOutput 3 0 0 0 ≠ performanceImplicationsOutput 4 0 0 0 ∧
    performanceComparisonOutput 3 0 0 0 ≠ performanceComparisonOutput 4 0 0 0 :=
  ⟨(performance_output_determined_by_measurements.1 3 0 0 0).1,
   performance_output_determined_by_measurements.2.1 3 4 0 0 0 (by decide),
   performance_output_determined_by_measurements.2.2 3 4 0 0 0 (by decide)⟩

/-! ## Claim C5 : goroutine spawn sites and their synchronization

Every go statement in the repository, recorded statically: the file, the
enclosing function, the source line of the go statement, how many
goroutines the site spawns, whether the spawned task reads or writes a
channel, and which discipline (if any) makes the program wait for the task
before exiting. unsynchronized means the program never waits for the task:
no WaitGroup, no mutex-protected join, and no receive matching its sends.
selectRecv means the only matching receive sits in a select with a default
clause, so the wait is not guaranteed. -/

/-- Synchronization discipline of a spawn site. -/
inductive SyncKind where
  | waitGroup
  | waitGroupMutex
  | channelRecv
  | selectRecv
  | unsynchronized
deriving DecidableEq

/-- One go statement in the repository. -/
structure SpawnSite where
  file : String
  fn : String
  line : Nat
  count : Nat
  usesChannel : Bool
  sync : SyncKind
deriving DecidableEq

/-- All go statements of the repository (the escape-analysis file appears
under src/unnamed/part_001, the channels/goroutines demonstrations under
src/unnamed/part_006). -/
def goSpawnSites : List SpawnSite :=
  [⟨"unnamed/part_001", "goroutinePatterns", 246, 1, false, SyncKind.unsynchronized⟩,
   ⟨"unnamed/part_001", "goroutinePatterns", 253, 1, false, SyncKind.unsynchronized⟩,
   ⟨"unnamed/part_001", "goroutinePatterns", 263, 1, true, SyncKind.channelRecv⟩,
   ⟨"unnamed/part_001", "goroutineMemoryIssues", 792, 5, false, SyncKind.waitGroup⟩,
   ⟨"memory-model/performance_implications.go", "stackPerGoroutine", 220, 5, false,
     SyncKind.waitGroup⟩,
   ⟨"memory-model/performance_implications.go", "heapSharing", 242, 3, false,
     SyncKind.waitGroupMutex⟩,
   ⟨"memory-model/performance_implications.go", "memoryContention", 264, 10, false,
     SyncKind.waitGroup⟩,
   ⟨"memory-model/escape_analysis_examples.go", "closureAllocationExamples", 253, 1, false,
     SyncKind.unsynchronized⟩,
   ⟨"unnamed/part_006", "channels", 85, 1, true, SyncKind.channelRecv⟩,
   ⟨"unnamed/part_006", "goroutines", 108, 1, false, SyncKind.unsynchronized⟩,
   ⟨"unnamed/part_006", "goroutines", 113, 1, false, SyncKind.unsynchronized⟩,
   ⟨"unnamed/part_006", "goroutines", 119, 1, true, SyncKind.channelRecv⟩,
   ⟨"unnamed/part_006", "channels", 471, 1, true, SyncKind.channelRecv⟩,
   ⟨"unnamed/part_006", "channels", 509, 1, true, SyncKind.selectRecv⟩,
   ⟨"unnamed/part_006", "channels", 513, 1, true, SyncKind.selectRecv⟩,
   ⟨"unnamed/part_006", "goroutines", 533, 1, false, SyncKind.unsynchronized⟩,
   ⟨"unnamed/part_006", "goroutines", 538, 1, false, SyncKind.unsynchronized⟩,
   ⟨"unnamed/part_006", "goroutines", 544, 1, true, SyncKind.channelRecv⟩,
   ⟨"unnamed/part_006", "goroutines", 555, 3, true, SyncKind.channelRecv⟩]

/-- Claim C5 counterexample: it is not the case that every spawned task
uses a channel and is synchronized by a wait-group-style barrier or a
mutex; already the first spawn site of goroutinePatterns (a goroutine
printing a captured variable, unnamed/part_001 line 246) uses no channel
and is never waited for. -/
theorem spawn_sites_not_all_synced :
    ((goSpawnSites.all fun s =>
        s.usesChannel &&
        (s.sync == SyncKind.waitGroup || s.sync == SyncKind.waitGroupMutex)) = false) ∧
    (goSpawnSites.filter fun s => s.sync == SyncKind.unsynchronized) ≠ [] := by
  decide

/-- Claim C5 amended: every spawn site spawns a small fixed number of
tasks (at most ten); the memory-model sites are synchronized with a
WaitGroup barrier, one of them also with a mutex guarding a shared slice,
and the channel demonstrations are synchronized by blocking receives; but
seven sites spawn fire-and-forget goroutines with no channel and no
synchronization before the program exits, and two sites are drained only
through a select with a default clause. -/
theorem spawn_sites_amended :
    ((goSpawnSites.all fun s => s.count ≤ 10) = true) ∧
    (goSpawnSites.filter fun s => s.sync == SyncKind.unsynchronized).length = 7 ∧
    (goSpawnSites.filter fun s => s.sync == SyncKind.selectRecv).length = 2 ∧
    ((goSpawnSites.any fun s => s.sync == SyncKind.waitGroup) = true) ∧
    ((goSpawnSites.any fun s => s.sync == SyncKind.waitGroupMutex) = true) ∧
    ((goSpawnSites.all fun s =>
        (s.sync == SyncKind.channelRecv || s.sync == SyncKind.selectRecv) ==
          s.usesChannel) = true) := by
  decide
